import Mathlib

/-!
# Verification of the session/credential lifecycle manager and AI orchestration layer

Shallow embedding of the core of the `constructor-ai` backend:

* `backend/app/auth/session.py` — the in-memory `SessionStore`
  (`get_session`, `update_credentials`, `create_session`);
* `backend/app/services/ai_service.py` — `AIService.__init__` (provider
  selection), `AIService._generate_completion` (retry/backoff loop),
  `AIService._fallback_response` (deterministic fallback),
  `AIService.parse_user_intent` (keyword intent extractor);
* the credential-refresh persist step shared by the request handlers in
  `backend/app/routers/chatbot.py` and `backend/app/routers/email.py`.

Python `datetime` values are modelled as natural numbers; Python's `str`
substring test (`needle in hay`) and `str.lower` are modelled directly on
`String`; the nondeterministic parts (the random session id from
`secrets.token_urlsafe`, the network-backed provider and refresher) are
passed in as explicit parameters, so every definition is executable.
-/

/-- Python `s.lower()` (ASCII lowering, which is all the source relies on). -/
def strLower (s : String) : String := String.mk (s.toList.map Char.toLower)

/-- Python `needle in hay` substring test on strings. -/
def containsSubstr (hay needle : String) : Bool :=
  hay.toList.tails.any (fun t => needle.toList.isPrefixOf t)

/-! ## Intent extractor (`AIService.parse_user_intent`) -/

/-- The intent tags produced by `parse_user_intent`. -/
inductive Intent where
  | read_emails
  | reply_to_email
  | delete_email
  | search_emails
  | organize_emails
  | bulk_operation
  | email_template
  | priority_emails
  | general
deriving DecidableEq

/-- First maximal run of digit characters, as in `re.findall(r'\d+', ...)[0]`. -/
def firstDigitRun : List Char → Option (List Char)
  | [] => none
  | c :: rest =>
    if c.isDigit then some (c :: rest.takeWhile Char.isDigit)
    else firstDigitRun rest

/-- Decimal value of a digit run, as in Python `int(...)`. -/
def digitsToNat (ds : List Char) : Nat :=
  ds.foldl (fun n c => n * 10 + (c.toNat - 48)) 0

/-- Python `int(re.findall(..., user_message)[0])` when a number is present. -/
def extractCount (user_message : String) : Option Nat :=
  (firstDigitRun user_message.toList).map digitsToNat

def readKeywords : List String :=
  ["show", "read", "get", "fetch", "last", "recent", "email", "emails", "inbox"]

def replyKeywords : List String := ["reply", "respond", "answer", "write back"]

def deleteKeywords : List String := ["delete", "remove", "trash", "clear"]

def searchKeywords : List String := ["search", "find", "look for", "filter"]

def organizeKeywords : List String :=
  ["organize", "sort", "categorize", "label", "priority"]

def bulkKeywords : List String := ["all", "bulk", "multiple", "mass"]

def templateKeywords : List String := ["template", "draft", "compose"]

def priorityKeywords : List String := ["important", "urgent", "priority"]

/-- Embedding of `AIService.parse_user_intent`, restricted to the `intent` tag and the
`count` parameter (the `sender`/`subject_keyword`/`filter_type` parameters are
produced by the independent regex helpers `_extract_sender`,
`_extract_subject_keyword` and `_extract_filter_type` and play no role in the
claims below).  Python's `if not count: count = 5` treats both `None` and `0`
as falsy, which the `matchedCount` branch reproduces. -/
def parse_user_intent (user_message : String) : Intent × Option Nat :=
  let msgLower := strLower user_message
  let count := extractCount user_message
  if readKeywords.any (containsSubstr msgLower) then
    let matchedCount :=
      match count with
      | none => some 5
      | some 0 => some 5
      | some n => some n
    (Intent.read_emails, matchedCount)
  else if replyKeywords.any (containsSubstr msgLower) then
    (Intent.reply_to_email, count)
  else if deleteKeywords.any (containsSubstr msgLower) then
    (Intent.delete_email, count)
  else if searchKeywords.any (containsSubstr msgLower) then
    (Intent.search_emails, count)
  else if organizeKeywords.any (containsSubstr msgLower) then
    (Intent.organize_emails, count)
  else if bulkKeywords.any (containsSubstr msgLower) then
    (Intent.bulk_operation, count)
  else if templateKeywords.any (containsSubstr msgLower) then
    (Intent.email_template, count)
  else if containsSubstr msgLower "unread" then
    (Intent.read_emails, none)
  else if priorityKeywords.any (containsSubstr msgLower) then
    (Intent.priority_emails, count)
  else
    (Intent.general, count)

/-! ## Session store (`backend/app/auth/session.py`) -/

/-- The credentials dictionary built in `exchange_code_for_credentials` and
`refresh_credentials_if_needed`. -/
structure Creds where
  token : String
  refresh_token : Option String
  token_uri : String
  client_id : String
  client_secret : String
  scopes : List String
deriving DecidableEq

/-- The user-info dictionary returned by `get_user_info`. -/
structure UserInfo where
  email : String
  name : String
  picture : String
deriving DecidableEq

/-- One entry of `SessionStore._sessions` (times are modelled as `Nat`). -/
structure SessionRec where
  email : String
  credentials : Creds
  user_info : UserInfo
  created_at : Nat
  expires_at : Nat
  last_accessed : Nat
deriving DecidableEq

/-- The `SessionStore._sessions` dictionary, as a map from session id. -/
def Store : Type := String → Option SessionRec

/-- Pointwise dictionary write (`self._sessions[k] = v` / `del self._sessions[k]`). -/
def setEntry (store : Store) (k : String) (v : Option SessionRec) : Store :=
  fun k' => if k' = k then v else store k'

/-- Embedding of `SessionStore.create_session`.  The random `secrets.token_urlsafe(32)`
identifier and the current time are passed in explicitly; `expires_at` is
`now + ttl` where `ttl` stands for `timedelta(hours=settings.session_expire_hours)`. -/
def create_session (store : Store) (session_id user_email : String) (credentials : Creds)
    (user_info : UserInfo) (now ttl : Nat) : Store :=
  setEntry store session_id (some
    { email := user_email
      credentials := credentials
      user_info := user_info
      created_at := now
      expires_at := now + ttl
      last_accessed := now })

/-- Embedding of `SessionStore.get_session`: returns the session data (with
`last_accessed` updated) together with the store after the call; an entry
with `datetime.utcnow() > expires_at` is deleted and `None` is returned. -/
def get_session (store : Store) (session_id : String) (now : Nat) :
    Option SessionRec × Store :=
  match store session_id with
  | none => (none, store)
  | some session =>
    if session.expires_at < now then
      (none, setEntry store session_id none)
    else
      let updated := { session with last_accessed := now }
      (some updated, setEntry store session_id (some updated))

/-- Embedding of `SessionStore.update_credentials`: replaces the credential bundle when the
session id is a key of the map (no expiry check), returns whether it was. -/
def update_credentials (store : Store) (session_id : String) (credentials : Creds) :
    Bool × Store :=
  match store session_id with
  | none => (false, store)
  | some session =>
    (true, setEntry store session_id (some { session with credentials := credentials }))

/-- Embedding of `SessionStore.delete_session`. -/
def delete_session (store : Store) (session_id : String) : Bool × Store :=
  match store session_id with
  | none => (false, store)
  | some _ => (true, setEntry store session_id none)

/-! ## Credential-refresh persist step of the request handlers

`handle_read_emails` and `handle_search_emails` in `routers/chatbot.py` and
`generate_reply`, `send_reply`, `delete_email` and `get_email_details` in
`routers/email.py` all share the same fragment:

    session = session_store.get_session(request.session_id)  -- handler prologue
    ...
    credentials_dict = session["credentials"]
    was_refreshed, updated_creds = refresh_credentials_if_needed(credentials_dict)
    if was_refreshed:
        session_store.update_credentials(session["email"], updated_creds)

The network-backed `refresh_credentials_if_needed` is passed in as a function
`refresh` returning the `(was_refreshed, updated_credentials_dict)` pair. -/

/-- Result of running the shared handler fragment: whether the session was
accepted, the credential bundle handed to the Gmail client, and the session
store after the fragment. -/
structure HandlerResult where
  authorized : Bool
  usedCreds : Option Creds
  store : Store

/-- The shared lookup-refresh-persist fragment of the request handlers. -/
def persistRefreshStep (store : Store) (sessionId : String)
    (refresh : Creds → Bool × Creds) (now : Nat) : HandlerResult :=
  match get_session store sessionId now with
  | (none, store') => { authorized := false, usedCreds := none, store := store' }
  | (some session, store') =>
    let refreshed := refresh session.credentials
    let store'' :=
      if refreshed.1 then (update_credentials store' session.email refreshed.2).2
      else store'
    { authorized := true, usedCreds := some refreshed.2, store := store'' }

/-! ## Provider gateway (`AIService`) -/

/-- The two classes of exception distinguished by `_generate_completion`:
a rate-limit signal (`"429"`/`"quota"`/`"rate"` in the message) and any
other exception. -/
inductive ProviderError where
  | rateLimit
  | transientError
deriving DecidableEq

/-- Constant `self.max_retries = 3` set in `AIService.__init__`. -/
def maxRetries : Nat := 3

/-- Constant `self.retry_delay = 1` set in `AIService.__init__`. -/
def retryDelay : Nat := 1

/-- Embedding of `AIService._fallback_response`: a pure function of the prompt text,
no network interaction. -/
def fallback_response (prompt : String) : String :=
  let p := strLower prompt
  if ["hi", "hello", "hey", "hii", "greetings"].any (containsSubstr p) then
    "Hello! 👋 I\x27m your AI email assistant. I can help you manage your Gmail inbox. What would you like to do?"
  else if containsSubstr p "summarize" then
    "This email contains important information. Please review the full content."
  else if containsSubstr p "reply" && containsSubstr p "email" && containsSubstr p "generate" then
    "Thank you for reaching out. I appreciate your message and will respond shortly with a detailed reply."
  else if containsSubstr p "indent" || containsSubstr p "classify" then
    if ["email", "show", "read", "last"].any (containsSubstr p) then
      "\x7b\"intent\": \"read_emails\", \"parameters\": \x7b\"count\": 5, \"sender\": null, \"subject_keyword\": null, \"email_reference\": null\x7d, \"confidence\": \"high\"\x7d"
    else
      "\x7b\"intent\": \"general\", \"parameters\": \x7b\"count\": null, \"sender\": null, \"subject_keyword\": null, \"email_reference\": null\x7d, \"confidence\": \"medium\"\x7d"
  else if ["what is", "how to", "tell me", "explain"].any (containsSubstr p) then
    "I\x27m an email assistant focused on helping you manage your Gmail. I can help you read, reply to, delete, search, organize, and categorize your emails. What would you like to do with your emails?"
  else
    "I\x27m here to help with your emails. I can:\n• Read recent/unread emails\n• Reply with AI assistance\n• Delete unwanted emails\n• Search and filter emails\n• Organize by priority/category\n• Generate email templates\n\nWhat would you like to do?"

/-- Observable outcome of one `_generate_completion` call: the returned text,
how many backend attempts were made, and the `time.sleep` durations in order. -/
structure CompletionTrace where
  output : String
  attempts : Nat
  waits : List Nat
deriving DecidableEq

/-- The body of `_generate_completion`'s `for attempt in range(self.max_retries)`
loop.  `backend` gives the outcome of the provider call at each attempt index
(the network is external); `remaining` is the number of loop iterations left,
`waits` accumulates the `time.sleep` durations, `tried` counts attempts made. -/
def genCompletionLoop (backend : Nat → Except ProviderError String) (prompt : String) :
    Nat → Nat → List Nat → Nat → CompletionTrace
  | _, 0, waits, tried =>
    { output := fallback_response prompt, attempts := tried, waits := waits }
  | attempt, remaining + 1, waits, tried =>
    match backend attempt with
    | Except.ok text => { output := text, attempts := tried + 1, waits := waits }
    | Except.error ProviderError.rateLimit =>
      let waitTime := retryDelay * 2 ^ attempt
      if attempt < maxRetries - 1 then
        genCompletionLoop backend prompt (attempt + 1) remaining (waits ++ [waitTime]) (tried + 1)
      else
        { output := fallback_response prompt, attempts := tried + 1, waits := waits }
    | Except.error ProviderError.transientError =>
      if attempt < maxRetries - 1 then
        genCompletionLoop backend prompt (attempt + 1) remaining (waits ++ [retryDelay]) (tried + 1)
      else
        { output := fallback_response prompt, attempts := tried + 1, waits := waits }

/-- Embedding of `AIService._generate_completion` (the loop entered with `attempt = 0`). -/
def generate_completion (backend : Nat → Except ProviderError String)
    (prompt : String) : CompletionTrace :=
  genCompletionLoop backend prompt 0 maxRetries [] 0

/-! ## Provider selection (`AIService.__init__`) -/

/-- The relevant fields of `Settings` in `backend/app/config.py`. -/
structure AppSettings where
  ai_provider : String
  openai_api_key : Option String
  anthropic_api_key : Option String
  gemini_api_key : Option String

/-- The backend kind selected at construction. -/
inductive Provider where
  | openai
  | anthropic
  | gemini
  | fallback
deriving DecidableEq

/-- Provider and model selected by a successful `AIService.__init__`. -/
structure AIServiceState where
  provider : Provider
  model : String
deriving DecidableEq

/-- Python falsiness of an optional secret (`if not settings.openai_api_key`):
both `None` and the empty string count as absent. -/
def keyMissing : Option String → Bool
  | none => true
  | some s => s.isEmpty

/-- Embedding of `AIService.__init__`: selects exactly one backend kind from
`settings.ai_provider.lower()` and raises `ValueError` when the API key of the
selected real provider is absent (before any client is constructed). -/
def initAIService (s : AppSettings) : Except String AIServiceState :=
  let provider := strLower s.ai_provider
  if provider = "openai" then
    if keyMissing s.openai_api_key then Except.error "OpenAI API key not configured"
    else Except.ok { provider := Provider.openai, model := "gpt-4o" }
  else if provider = "anthropic" then
    if keyMissing s.anthropic_api_key then Except.error "Anthropic API key not configured"
    else Except.ok { provider := Provider.anthropic, model := "claude-3-sonnet-20240229" }
  else if provider = "gemini" then
    if keyMissing s.gemini_api_key then Except.error "Gemini API key not configured"
    else Except.ok { provider := Provider.gemini, model := "gemini-2.5-flash" }
  else if provider = "fallback" then
    Except.ok { provider := Provider.fallback, model := "fallback" }
  else
    Except.error ("Unsupported AI provider: " ++ provider)

/-! ## Concrete fixtures used by the counterexamples and witnesses -/

/-- A credential bundle as produced by `exchange_code_for_credentials`. -/
def credsOld : Creds :=
  { token := "ya29.old-access-token"
    refresh_token := some "1//refresh-token"
    token_uri := "https://oauth2.googleapis.com/token"
    client_id := "client-id"
    client_secret := "client-secret"
    scopes := ["https://www.googleapis.com/auth/gmail.readonly"] }

/-- The bundle returned by a successful refresh: a new access token. -/
def credsNew : Creds := { credsOld with token := "ya29.new-access-token" }

def userInfoA : UserInfo :=
  { email := "user@example.com", name := "Test User", picture := "https://example.com/p.png" }

/-- A live session created at time 0 with the default 24-hour TTL
(86400 seconds). -/
def recA : SessionRec :=
  { email := "user@example.com"
    credentials := credsOld
    user_info := userInfoA
    created_at := 0
    expires_at := 86400
    last_accessed := 0 }

/-- A store holding exactly the session `recA` under the id `"sid-1"`. -/
def storeA : Store := fun k => if k = "sid-1" then some recA else none

/-- A session whose expiry (time 2) has already passed at time 5. -/
def recExpired : SessionRec := { recA with expires_at := 2 }

/-- A store holding exactly the expired session under the id `"sid-2"`. -/
def storeExpired : Store := fun k => if k = "sid-2" then some recExpired else none

/-- Settings selecting the openai provider with every API key absent. -/
def settingsNoKey : AppSettings :=
  { ai_provider := "openai"
    openai_api_key := none
    anthropic_api_key := none
    gemini_api_key := none }

/-! # Theorems for the claims -/

/-- C1: the request handlers look a session up by its session id but persist
the refreshed bundle with `session_store.update_credentials(session["email"],
updated_creds)` — keyed by the owner email, which is not a key of the
session map.  Evaluated at a concrete store: the handler runs, the update is
a no-op (no entry exists under the email, and none is created), and an
immediately subsequent lookup of the same session id still returns the stale
bundle, contradicting the claim that the refreshed bundle is persisted under
the looked-up session id. -/
theorem c1_refreshed_bundle_not_persisted :
    (persistRefreshStep storeA "sid-1" (fun _ => (true, credsNew)) 5).authorized = true ∧
    (persistRefreshStep storeA "sid-1" (fun _ => (true, credsNew)) 5).usedCreds = some credsNew ∧
    ((persistRefreshStep storeA "sid-1" (fun _ => (true, credsNew)) 5).store "sid-1").map
      SessionRec.credentials = some credsOld ∧
    (persistRefreshStep storeA "sid-1" (fun _ => (true, credsNew)) 5).store "user@example.com"
      = none ∧
    ((get_session (persistRefreshStep storeA "sid-1" (fun _ => (true, credsNew)) 5).store
        "sid-1" 6).1).map SessionRec.credentials = some credsOld := by
  decide

/-- C2 counterexample: `"delete the email from spam@example.com"` does not map
to the delete intent, because `"email"` is among the read keywords and the
read branch is tested first. -/
theorem c2_delete_example_not_delete_intent :
    ¬ ((parse_user_intent "delete the email from spam@example.com").1
        = Intent.delete_email) := by
  decide

/-- C2 amended: `"delete the email from spam@example.com"` maps to the read
intent (with the defaulted count 5), since `"email"` is a read keyword and the
read branch has highest priority. -/
theorem c2_delete_example_resolves_to_read :
    parse_user_intent "delete the email from spam@example.com"
      = (Intent.read_emails, some 5) := by
  decide

/-- C3: `"show unread"` hits the read branch first (`"show"` matches, and
`"read"` is a substring of `"unread"` so every unread-phrased text matches the
read keywords), hence the extractor returns count 5, not an absent count; the
dedicated unread branch that would set the count to absent is unreachable. -/
theorem c3_show_unread_count_defaults_to_five :
    parse_user_intent "show unread" = (Intent.read_emails, some 5) := by
  decide

/-- C4 counterexample: at the instant `now = expires_at` (86400 for `recA`)
the claim says the entry is evicted and NotFound is reported, but
`get_session` uses the strict test `now > expires_at`, returns the record and
keeps the entry. -/
theorem c4_lookup_at_expiry_instant_returns_record :
    (get_session storeA "sid-1" 86400).1 = some { recA with last_accessed := 86400 } ∧
    (get_session storeA "sid-1" 86400).2 "sid-1"
      = some { recA with last_accessed := 86400 } := by
  decide

/-- C4 amended: lookup returns the record iff an entry exists and
`now ≤ expires_at`; the entry is evicted and NotFound reported exactly when
`now > expires_at` (strict). -/
theorem c4_lookup_visible_iff_now_le_expiry (store : Store) (sid : String) (now : Nat) :
    ((get_session store sid now).1 ≠ none ↔
      ∃ r, store sid = some r ∧ now ≤ r.expires_at) ∧
    (∀ r, store sid = some r → r.expires_at < now →
      (get_session store sid now).1 = none ∧ (get_session store sid now).2 sid = none) := by
  constructor
  · constructor
    · intro h
      cases hs : store sid with
      | none => simp [get_session, hs] at h
      | some r =>
        by_cases hexp : r.expires_at < now
        · simp [get_session, hs, hexp] at h
        · exact ⟨r, rfl, Nat.le_of_not_lt hexp⟩
    · rintro ⟨r, hs, hle⟩
      simp [get_session, hs, Nat.not_lt.mpr hle]
  · intro r hs hexp
    simp [get_session, hs, hexp, setEntry]

/-- C4 witness: at `now = expires_at` the concrete session is visible, and one
instant later it is evicted. -/
theorem c4_lookup_visible_iff_now_le_expiry_witness :
    (get_session storeA "sid-1" 86400).1 ≠ none ∧
    (get_session storeA "sid-1" 86401).1 = none ∧
    (get_session storeA "sid-1" 86401).2 "sid-1" = none := by
  refine ⟨?_, ?_, ?_⟩
  · exact (c4_lookup_visible_iff_now_le_expiry storeA "sid-1" 86400).1.mpr
      ⟨recA, by decide, by decide⟩
  · exact ((c4_lookup_visible_iff_now_le_expiry storeA "sid-1" 86401).2 recA
      (by decide) (by decide)).1
  · exact ((c4_lookup_visible_iff_now_le_expiry storeA "sid-1" 86401).2 recA
      (by decide) (by decide)).2

/-- C5 counterexample: with a backend that raises a non-rate-limit transient
error on every attempt, `_generate_completion` makes 3 attempts, not the 2
attempts (one retry) the claim states. -/
theorem c5_transient_not_two_attempts :
    (generate_completion (fun _ => Except.error ProviderError.transientError)
        "ping").attempts = 3 ∧
    ¬ ((generate_completion (fun _ => Except.error ProviderError.transientError)
        "ping").attempts = 2) := by
  decide

/-- C5 amended: when the backend raises a non-rate-limit transient error on
every attempt, `_generate_completion` retries twice with the fixed delay
`retry_delay` before each retry (3 attempts in total) and then returns the
Fallback output. -/
theorem c5_transient_two_retries_then_fallback
    (backend : Nat → Except ProviderError String) (prompt : String)
    (h : ∀ n, backend n = Except.error ProviderError.transientError) :
    generate_completion backend prompt =
      { output := fallback_response prompt, attempts := 3,
        waits := [retryDelay, retryDelay] } := by
  have hb : backend = fun _ => Except.error ProviderError.transientError := funext h
  subst hb
  rfl

/-- C5 witness: the amended retry policy evaluated at a concrete
always-failing backend. -/
theorem c5_transient_two_retries_then_fallback_witness :
    generate_completion (fun _ => Except.error ProviderError.transientError) "ping" =
      { output := fallback_response "ping", attempts := 3,
        waits := [retryDelay, retryDelay] } :=
  c5_transient_two_retries_then_fallback _ "ping" (fun _ => rfl)

/-- C6: when the backend signals rate-limit on every attempt,
`_generate_completion` makes exactly 3 attempts, sleeps
`retry_delay * 2 ^ attempt` before each retry (so the waits are strictly
increasing within the call), and after the ceiling returns the deterministic
Fallback output rather than raising. -/
theorem c6_rate_limit_three_attempts_then_fallback
    (backend : Nat → Except ProviderError String) (prompt : String)
    (h : ∀ n, backend n = Except.error ProviderError.rateLimit) :
    generate_completion backend prompt =
      { output := fallback_response prompt, attempts := 3,
        waits := [retryDelay * 2 ^ 0, retryDelay * 2 ^ 1] } ∧
    retryDelay * 2 ^ 0 < retryDelay * 2 ^ 1 := by
  have hb : backend = fun _ => Except.error ProviderError.rateLimit := funext h
  subst hb
  exact ⟨rfl, by decide⟩

/-- C6 witness: the rate-limit retry policy evaluated at a concrete
always-rate-limited backend. -/
theorem c6_rate_limit_three_attempts_then_fallback_witness :
    generate_completion (fun _ => Except.error ProviderError.rateLimit) "ping" =
      { output := fallback_response "ping", attempts := 3,
        waits := [retryDelay * 2 ^ 0, retryDelay * 2 ^ 1] } ∧
    retryDelay * 2 ^ 0 < retryDelay * 2 ^ 1 :=
  c6_rate_limit_three_attempts_then_fallback _ "ping" (fun _ => rfl)

/-- C7: for each real provider kind (openai, anthropic, gemini), constructing
the service while that kind's required API secret is absent (None or empty)
yields the `ValueError` immediately; construction never succeeds without the
secret. -/
theorem c7_missing_secret_fails_construction (s : AppSettings)
    (h : (strLower s.ai_provider = "openai" ∧ keyMissing s.openai_api_key = true) ∨
         (strLower s.ai_provider = "anthropic" ∧ keyMissing s.anthropic_api_key = true) ∨
         (strLower s.ai_provider = "gemini" ∧ keyMissing s.gemini_api_key = true)) :
    ∃ msg, initAIService s = Except.error msg := by
  rcases h with ⟨hp, hk⟩ | ⟨hp, hk⟩ | ⟨hp, hk⟩
  · exact ⟨"OpenAI API key not configured", by simp [initAIService, hp, hk]⟩
  · exact ⟨"Anthropic API key not configured", by simp [initAIService, hp, hk]⟩
  · exact ⟨"Gemini API key not configured", by simp [initAIService, hp, hk]⟩

/-- C7 witness: constructing with provider `"openai"` and no key fails. -/
theorem c7_missing_secret_fails_construction_witness :
    (strLower settingsNoKey.ai_provider = "openai" ∧
      keyMissing settingsNoKey.openai_api_key = true) ∧
    ∃ msg, initAIService settingsNoKey = Except.error msg :=
  ⟨⟨by decide, by decide⟩,
    c7_missing_secret_fails_construction settingsNoKey (Or.inl ⟨by decide, by decide⟩)⟩

/-- C8: `get_session` and `update_credentials` never change `expires_at`,
`created_at`, the owner email or the profile snapshot of a surviving record:
`get_session` rewrites only `last_accessed`, `update_credentials` only
`credentials`, and neither touches any other key of the map. -/
theorem c8_session_ops_preserve_frame (store : Store) (sid : String) (now : Nat)
    (creds : Creds) (r : SessionRec) (h : store sid = some r) :
    (∀ r', (get_session store sid now).2 sid = some r' →
      r'.email = r.email ∧ r'.credentials = r.credentials ∧ r'.user_info = r.user_info ∧
      r'.created_at = r.created_at ∧ r'.expires_at = r.expires_at) ∧
    (∀ r', (update_credentials store sid creds).2 sid = some r' →
      r'.email = r.email ∧ r'.user_info = r.user_info ∧ r'.created_at = r.created_at ∧
      r'.expires_at = r.expires_at ∧ r'.last_accessed = r.last_accessed ∧
      r'.credentials = creds) ∧
    (∀ k, k ≠ sid → (get_session store sid now).2 k = store k ∧
      (update_credentials store sid creds).2 k = store k) := by
  refine ⟨?_, ?_, ?_⟩
  · intro r' hr'
    by_cases hexp : r.expires_at < now
    · simp [get_session, h, hexp, setEntry] at hr'
    · simp [get_session, h, hexp, setEntry] at hr'
      subst hr'
      exact ⟨rfl, rfl, rfl, rfl, rfl⟩
  · intro r' hr'
    simp [update_credentials, h, setEntry] at hr'
    subst hr'
    exact ⟨rfl, rfl, rfl, rfl, rfl, rfl⟩
  · intro k hk
    by_cases hexp : r.expires_at < now <;>
      simp [get_session, update_credentials, h, hexp, setEntry, hk]

/-- C8 witness: the frame conditions at a concrete live store. -/
theorem c8_session_ops_preserve_frame_witness :
    (∀ r', (get_session storeA "sid-1" 5).2 "sid-1" = some r' →
      r'.email = recA.email ∧ r'.credentials = recA.credentials ∧
      r'.user_info = recA.user_info ∧ r'.created_at = recA.created_at ∧
      r'.expires_at = recA.expires_at) ∧
    (∀ r', (update_credentials storeA "sid-1" credsNew).2 "sid-1" = some r' →
      r'.email = recA.email ∧ r'.user_info = recA.user_info ∧
      r'.created_at = recA.created_at ∧ r'.expires_at = recA.expires_at ∧
      r'.last_accessed = recA.last_accessed ∧ r'.credentials = credsNew) ∧
    (∀ k, k ≠ "sid-1" → (get_session storeA "sid-1" 5).2 k = storeA k ∧
      (update_credentials storeA "sid-1" credsNew).2 k = storeA k) :=
  c8_session_ops_preserve_frame storeA "sid-1" 5 credsNew recA (by decide)

/-- C9: the Fallback backend is a deterministic pure function of the prompt
text (its embedding performs no I/O): identical prompts yield identical
output. -/
theorem c9_fallback_deterministic (p q : String) (h : p = q) :
    fallback_response p = fallback_response q := by
  rw [h]

/-- C9 witness: determinism at a concrete prompt. -/
theorem c9_fallback_deterministic_witness :
    fallback_response "hello" = fallback_response "hello" :=
  c9_fallback_deterministic "hello" "hello" rfl

/-- C10: `update_credentials` performs no expiry check: on a session still in
the map whose `expires_at` has passed (so `get_session` would evict it and
report NotFound), it still replaces the bundle and returns true. -/
theorem c10_update_credentials_ignores_expiry (store : Store) (sid : String)
    (creds : Creds) (now : Nat) (r : SessionRec)
    (h : store sid = some r) (hexp : r.expires_at < now) :
    (update_credentials store sid creds).1 = true ∧
    (update_credentials store sid creds).2 sid = some { r with credentials := creds } ∧
    (get_session store sid now).1 = none := by
  refine ⟨?_, ?_, ?_⟩ <;> simp [update_credentials, get_session, h, hexp, setEntry]

/-- C10 witness: updating an already-expired concrete session succeeds while
lookup at the same instant reports NotFound. -/
theorem c10_update_credentials_ignores_expiry_witness :
    (storeExpired "sid-2" = some recExpired ∧ recExpired.expires_at < 5) ∧
    ((update_credentials storeExpired "sid-2" credsNew).1 = true ∧
     (update_credentials storeExpired "sid-2" credsNew).2 "sid-2"
       = some { recExpired with credentials := credsNew } ∧
     (get_session storeExpired "sid-2" 5).1 = none) :=
  ⟨⟨by decide, by decide⟩,
    c10_update_credentials_ignores_expiry storeExpired "sid-2" credsNew 5 recExpired
      (by decide) (by decide)⟩
